import Mathlib

/-!
Verification development for the OpenEnroth collision-resolution engine and the
LOD package reader.

The LOD reader operations are translated from the repository sources
(LodReader.cpp). The collision engine is only declared in the repository
headers (Engine/Collisions.h): the function bodies are not part of the sources
at hand, so every collision operation below is modelled from the specification
text and from the contracts stated in the header doc comments. Fixpoint values
are integers scaled by 65536, as in the engine.
-/

/-- 3D integer vector, as Vec3_int_ of the engine. Components that hold
fixpoint values are scaled by 65536. -/
structure Vec3_int_ where
  x : Int
  y : Int
  z : Int
deriving DecidableEq, Repr

/-- Axis-aligned integer bounding box, as BBox_int_ of the engine. -/
structure BBox_int_ where
  x1 : Int
  x2 : Int
  y1 : Int
  y2 : Int
  z1 : Int
  z2 : Int
deriving DecidableEq, Repr

/-- The collision context, translated field by field from the CollisionState
struct of the header. The actor is modelled as two spheres, lo ("feet") and
hi ("head"). -/
structure CollisionState where
  check_hi : Int
  radius_lo : Int
  radius_hi : Int
  position_lo : Vec3_int_
  position_hi : Vec3_int_
  new_position_lo : Vec3_int_
  new_position_hi : Vec3_int_
  velocity : Vec3_int_
  direction : Vec3_int_
  speed : Int := 0
  total_move_distance : Int
  move_distance : Int
  adjusted_move_distance : Int
  uSectorID : Nat := 0
  pid : Nat
  ignored_face_id : Int
  bbox : BBox_int_ := ⟨0, 0, 0, 0, 0, 0⟩
deriving DecidableEq, Repr

/-- Dot product of vectors where one factor is in fixpoint format; the result
is descaled by 65536 as the engine does after fixpoint multiplication. -/
def fixDot (a b : Vec3_int_) : Int :=
  (a.x * b.x + a.y * b.y + a.z * b.z) / 65536

/-- The point reached from pos after moving t units along the fixpoint unit
vector dir. -/
def rayPoint (pos dir : Vec3_int_) (t : Int) : Vec3_int_ :=
  ⟨pos.x + t * dir.x / 65536, pos.y + t * dir.y / 65536, pos.z + t * dir.z / 65536⟩

/-- Integer magnitude of a vector. -/
def vecLenInt (v : Vec3_int_) : Int :=
  Int.ofNat (Nat.sqrt (v.x * v.x + v.y * v.y + v.z * v.z).toNat)

/-- Dominant cardinal plane a near-planar face is projected onto for cheap 2D
containment tests. Modelled from the spec, section on the data model. -/
inductive FaceProjection where
  | projXY
  | projXZ
  | projYZ
deriving DecidableEq, Repr

/-- Modelled from the spec: a convex planar polygon with a fixpoint unit
normal, a plane offset, a dominant-axis projection, a vertex list and an
ethereal flag. The BLVFace struct itself is external to the sources at hand. -/
structure BLVFace where
  id : Int
  normal : Vec3_int_
  dist : Int
  projection : FaceProjection
  vertices : List Vec3_int_
  Ethereal : Bool
deriving DecidableEq, Repr

/-- Projection of a 3D point onto a cardinal plane: the excluded axis is
dropped. -/
def projectPoint (proj : FaceProjection) (p : Vec3_int_) : Int × Int :=
  match proj with
  | .projXY => (p.x, p.y)
  | .projXZ => (p.x, p.z)
  | .projYZ => (p.y, p.z)

/-- Signed distance from a point to the plane of a face: positive on the side
the normal points to. -/
def faceSignedDist (face : BLVFace) (p : Vec3_int_) : Int :=
  fixDot face.normal p + face.dist

/-- Vertices of a face projected onto its dominant plane. -/
def faceVerts2D (face : BLVFace) : List (Int × Int) :=
  face.vertices.map (projectPoint face.projection)

/-- Whether the edge from a to b crosses the horizontal ray cast from p, for
the edge-crossing point-in-polygon test. Division-free form of the classic
ray-cast comparison. -/
def edgeCrossesRay (p a b : Int × Int) : Bool :=
  (decide (a.2 > p.2) != decide (b.2 > p.2)) &&
    (if b.2 > a.2
     then decide ((p.1 - a.1) * (b.2 - a.2) < (b.1 - a.1) * (p.2 - a.2))
     else decide ((p.1 - a.1) * (b.2 - a.2) > (b.1 - a.1) * (p.2 - a.2)))

/-- Consecutive edge list of a polygon, closing back to the first vertex. -/
def polygonEdges (vs : List (Int × Int)) : List ((Int × Int) × (Int × Int)) :=
  vs.zip (vs.drop 1 ++ vs.take 1)

/-- Modelled from the spec: point-in-polygon containment by edge-crossing
parity; degenerate polygons with fewer than 3 vertices contain no point. -/
def pointInPolygon (p : Int × Int) (vs : List (Int × Int)) : Bool :=
  if vs.length < 3 then false
  else (polygonEdges vs).foldl (fun acc e => acc != edgeCrossesRay p e.1 e.2) false

/-- Modelled from the spec: shared body of the point-vs-face exact hit test.
Given a face, a point, a fixpoint unit direction and the current best move
distance, decide whether the ray actually hits the polygon within the best
distance. The pair returned models the boolean result together with the final
value of the move distance in/out parameter: the second component equals the
input whenever the first component is false. -/
def collidePointWithFaceCore (face : BLVFace) (pos dir : Vec3_int_)
    (move_distance : Int) : Bool × Int :=
  let cosDir := fixDot face.normal dir
  if 0 ≤ cosDir then (false, move_distance)
  else
    let dist0 := faceSignedDist face pos
    if dist0 < 0 then (false, move_distance)
    else
      let t := dist0 * 65536 / (-cosDir)
      if move_distance < t then (false, move_distance)
      else if pointInPolygon (projectPoint face.projection (rayPoint pos dir t))
                (faceVerts2D face) then (true, t)
      else (false, move_distance)

/-- Modelled from the spec: indoor entry point of the point-vs-face test,
original offset 0x475D85. -/
def CollidePointIndoorWithFace (face : BLVFace) (pos dir : Vec3_int_)
    (move_distance : Int) : Bool × Int :=
  collidePointWithFaceCore face pos dir move_distance

/-- Modelled from the spec: outdoor entry point of the point-vs-face test,
original offset 0x475F30; the spec states that the geometric contract is
identical to the indoor entry point. -/
def CollidePointOutdoorWithFace (move_distance : Int) (face : BLVFace)
    (pos dir : Vec3_int_) (model_index : Nat) : Bool × Int :=
  collidePointWithFaceCore face pos dir move_distance

/-- Modelled from the spec: shared body of the sphere-vs-face touch test.
Excluded faces (ethereal when requested, or equal to the ignored face) never
report a collision. Returns false when the sphere moves away from or parallel
to the plane, or already lies behind it, or when the projected touch point
misses the polygon. On success the returned distance is the clamped
non-negative travel needed for the center to come within radius of the plane.
The second component of the pair models the move distance out parameter and
equals the input whenever the test fails. -/
def collideSphereWithFaceCore (face : BLVFace) (pos : Vec3_int_) (radius : Int)
    (dir : Vec3_int_) (move_distance : Int) (ignore_ethereal : Bool)
    (ignored_face_id : Int) : Bool × Int :=
  if ignore_ethereal && face.Ethereal then (false, move_distance)
  else if face.id = ignored_face_id then (false, move_distance)
  else
    let cosDir := fixDot face.normal dir
    if 0 ≤ cosDir then (false, move_distance)
    else
      let dist0 := faceSignedDist face pos
      if dist0 < 0 then (false, move_distance)
      else
        let t := max 0 ((dist0 - radius) * 65536 / (-cosDir))
        let newCenter := rayPoint pos dir t
        let contact : Vec3_int_ :=
          ⟨newCenter.x - radius * face.normal.x / 65536,
           newCenter.y - radius * face.normal.y / 65536,
           newCenter.z - radius * face.normal.z / 65536⟩
        if pointInPolygon (projectPoint face.projection contact) (faceVerts2D face)
        then (true, t)
        else (false, move_distance)

/-- Modelled from the spec: indoor sphere-vs-face touch test, original offset
0x47531C. The ignored face id of the global collision context is passed
explicitly. -/
def CollideIndoorWithFace (face : BLVFace) (pos : Vec3_int_) (radius : Int)
    (dir : Vec3_int_) (move_distance : Int) (ignore_ethereal : Bool)
    (ignored_face_id : Int) : Bool × Int :=
  collideSphereWithFaceCore face pos radius dir move_distance ignore_ethereal ignored_face_id

/-- Modelled from the spec: outdoor sphere-vs-face touch test, original offset
0x4754BF; same geometric contract as the indoor entry point. -/
def CollideOutdoorWithFace (radius : Int) (move_distance : Int)
    (pos dir : Vec3_int_) (face : BLVFace) (model_index : Nat)
    (ignore_ethereal : Bool) (ignored_face_id : Int) : Bool × Int :=
  collideSphereWithFaceCore face pos radius dir move_distance ignore_ethereal ignored_face_id

/-- Object kind tag for actors in the packed object handle encoding. -/
def OBJECT_Actor : Nat := 3

/-- Object kind tag for level geometry models in the packed object handle
encoding. -/
def OBJECT_BModel : Nat := 6

/-- Modelled from the spec: packed object handle combining a kind tag and an
index. -/
def mkPid (kind idx : Nat) : Nat := idx * 8 + kind

/-- Modelled from the spec: movement preparation, CollisionState method
PrepareAndCheckIfStationary. Computes velocity as the difference between the
desired and the current lo sphere centers, speed as its magnitude and
direction as the fixpoint unit vector, all axes zero in the stationary case.
The movement budget for the pass is speed times the fixpoint time delta, the
granted distance starts equal to the budget and the accumulated total starts
at 0. Returns true exactly when there is no movement. -/
def CollisionState.PrepareAndCheckIfStationary (s : CollisionState) (dt : Int) :
    Bool × CollisionState :=
  let v : Vec3_int_ :=
    ⟨s.new_position_lo.x - s.position_lo.x,
     s.new_position_lo.y - s.position_lo.y,
     s.new_position_lo.z - s.position_lo.z⟩
  let spd := vecLenInt v
  let md := spd * dt / 65536
  if spd = 0 then
    (true, { s with
             velocity := v
             speed := 0
             direction := ⟨0, 0, 0⟩
             total_move_distance := 0
             move_distance := md
             adjusted_move_distance := md })
  else
    (false, { s with
              velocity := v
              speed := spd
              direction := ⟨v.x * 65536 / spd, v.y * 65536 / spd, v.z * 65536 / spd⟩
              total_move_distance := 0
              move_distance := md
              adjusted_move_distance := md })

/-- Records a face test result in the context: a hit closer than the granted
distance lowers the granted distance and stores the handle of the obstacle. -/
def lowerDistance (st : CollisionState) (hit : Bool × Int) (handle : Nat) :
    CollisionState :=
  if hit.1 = true ∧ hit.2 < st.adjusted_move_distance then
    { st with
      adjusted_move_distance := hit.2
      pid := handle }
  else st

/-- Modelled from the spec: one driver step against a single face. The lo
sphere and, when check_hi is set, the hi sphere are tested; a hit that is
closer than the currently granted distance lowers it and records the handle
of the face. -/
def collideGeometryStep (ignore_ethereal : Bool) (st : CollisionState)
    (face : BLVFace) : CollisionState :=
  let st1 := lowerDistance st
    (CollideIndoorWithFace face st.position_lo st.radius_lo st.direction
      st.adjusted_move_distance ignore_ethereal st.ignored_face_id)
    (mkPid OBJECT_BModel face.id.toNat)
  if st.check_hi ≠ 0 then
    lowerDistance st1
      (CollideIndoorWithFace face st.position_hi st.radius_hi st1.direction
        st1.adjusted_move_distance ignore_ethereal st1.ignored_face_id)
      (mkPid OBJECT_BModel face.id.toNat)
  else st1

/-- Modelled from the spec: the indoor geometry pass, original offset
0x46E44E. Folds the driver step over the candidate faces of the sector,
reducing the granted movement distance to the minimum touch distance found. -/
def CollideIndoorWithGeometry (s : CollisionState) (faces : List BLVFace)
    (ignore_ethereal : Bool) : CollisionState :=
  faces.foldl (collideGeometryStep ignore_ethereal) s

/-- One step of the portal scan: runs the point-vs-face test against one
portal face, threading the best distance and remembering whether any face was
hit so far. -/
def portalScanStep (pos dir : Vec3_int_) (acc : Bool × Int) (face : BLVFace) :
    Bool × Int :=
  let r := CollidePointIndoorWithFace face pos dir acc.2
  (acc.1 || r.1, r.2)

/-- Modelled from the spec: portal collision check, original offset 0x46F04E.
Runs the point-vs-face test over the portal faces of the sector, threading the
movement budget through the best-distance in/out parameter. If any portal face
is hit, the granted distance is set to the sentinel 0xFFFFFF and false is
returned; otherwise true is returned and the context is left untouched. -/
def CollideIndoorWithPortals (s : CollisionState) (portalFaces : List BLVFace) :
    Bool × CollisionState :=
  let scan := portalFaces.foldl (portalScanStep s.position_lo s.direction)
    (false, s.move_distance)
  if scan.1 then (false, { s with adjusted_move_distance := 0xFFFFFF })
  else (true, s)

/-- Modelled from the spec: a dynamic actor, reduced to the fields the 2D
circle test consults. -/
structure Actor where
  position : Vec3_int_
  radius : Int
deriving DecidableEq, Repr

/-- Modelled from the spec: coarse actor collision filter, original offset
0x46DF1A. A 2D horizontal-plane circle-circle test between the context circle
and the circle of the candidate actor, whose radius is replaced by the
override when the override is nonzero. Self-collision is excluded by
comparing packed object handles. -/
def CollideWithActor (s : CollisionState) (actors : List Actor)
    (actor_idx : Nat) (override_radius : Int) : Bool :=
  match actors[actor_idx]? with
  | none => false
  | some actor =>
    let radius := if override_radius ≠ 0 then override_radius else actor.radius
    if s.pid = mkPid OBJECT_Actor actor_idx then false
    else
      let dx := actor.position.x - s.position_lo.x
      let dy := actor.position.y - s.position_lo.y
      let rsum := radius + s.radius_lo
      decide (dx * dx + dy * dy ≤ rsum * rsum)

/-- The collision context invariant stated by the spec: the granted distance
is non-negative and never exceeds the remaining movement budget, which is
itself non-negative. -/
def CollisionInvariant (s : CollisionState) : Prop :=
  0 ≤ s.adjusted_move_distance ∧ 0 ≤ s.move_distance ∧
    s.adjusted_move_distance ≤ s.move_distance

instance (s : CollisionState) : Decidable (CollisionInvariant s) := by
  unfold CollisionInvariant
  infer_instance

/-!
LOD package reader, translated from LodReader.cpp. The binary deserialization
layer (the deserialize calls going through the snapshot library) is external
to this repository, so a blob is modelled as carrying the values that
deserialization yields: its byte size, the parsed header, the parsed root
directory entry, and the parsed list of file entries. All validation logic and
all state updates below are translated statement by statement from the source.
-/

/-- LOD format versions, as the LodVersion enum. -/
inductive LodVersion where
  | LOD_VERSION_MM6
  | LOD_VERSION_MM6_GAME
  | LOD_VERSION_MM7
  | LOD_VERSION_MM8
deriving DecidableEq, Repr

/-- Parsed LOD header, as the LodHeader fields the reader consults. -/
structure LodHeader where
  signature : String
  version : String
  description : String
  numDirectories : Nat
deriving DecidableEq, Repr

/-- Parsed LOD directory or file entry, as the LodEntry fields the reader
consults. -/
structure LodEntry where
  name : String
  dataOffset : Nat
  dataSize : Nat
  numItems : Nat
deriving DecidableEq, Repr

/-- A blob of bytes, modelled as the values its deserialization yields; the
deserialization code itself is external to this repository. -/
structure Blob where
  size : Nat
  header : LodHeader
  rootEntry : LodEntry
  entries : List LodEntry
deriving DecidableEq, Repr

/-- The default-constructed empty blob. -/
def Blob.empty : Blob :=
  { size := 0
    header := { signature := "", version := "", description := "", numDirectories := 0 }
    rootEntry := { name := "", dataOffset := 0, dataSize := 0, numItems := 0 }
    entries := [] }

/-- A named region of the LOD file, as the LodRegion struct. -/
structure LodRegion where
  name : String
  offset : Nat
  size : Nat
deriving DecidableEq, Repr

/-- Metadata of an opened LOD, as the LodInfo struct. -/
structure LodInfo where
  version : LodVersion
  description : String
  rootName : String
deriving DecidableEq, Repr

/-- The default-constructed LodInfo. -/
def LodInfo.empty : LodInfo :=
  { version := .LOD_VERSION_MM6, description := "", rootName := "" }

/-- Observable state of a LodReader: the four fields assigned by open and
reset by close. -/
structure LodReader where
  _lod : Blob
  _path : String
  _info : LodInfo
  _files : List LodRegion
deriving DecidableEq, Repr

/-- A closed reader: all fields hold their default values. -/
def LodReader.closedState : LodReader :=
  { _lod := Blob.empty, _path := "", _info := LodInfo.empty, _files := [] }

/-- Errors thrown by LodReader open, one per throw site of the source. -/
inductive LodError where
  | tooSmall
  | badSignature
  | badVersion
  | badNumDirectories
  | badDirIndexSize
  | dirIndexOutOfBounds
  | subdirectory (name : String)
  | entryOutOfBounds (name : String)
  | duplicateEntry (name : String)
deriving DecidableEq, Repr

/-- Open flag LOD_ALLOW_DUPLICATES from LodEnums. -/
def LOD_ALLOW_DUPLICATES : Nat := 1

/-- Size in bytes of the on-disk LodHeader_MM6 snapshot struct; the struct
itself is external to this repository. -/
def sizeofLodHeaderMM6 : Nat := 256

/-- Size in bytes of the on-disk LodEntry_MM6 snapshot struct; the struct
itself is external to this repository. -/
def sizeofLodEntryMM6 : Nat := 32

/-- Size in bytes of one on-disk file entry for a given LOD version; the
entry structs are external to this repository. -/
def fileEntrySize (version : LodVersion) : Nat :=
  match version with
  | .LOD_VERSION_MM8 => 20
  | _ => 32

/-- Version-string decoding performed by tryDeserialize; the string table is
external to this repository, and only the success or failure of the decoding
matters to the reader. -/
def tryDeserializeVersion (v : String) : Option LodVersion :=
  if v = "MMVI" then some .LOD_VERSION_MM6
  else if v = "GameMMVI" then some .LOD_VERSION_MM6_GAME
  else if v = "MMVII" then some .LOD_VERSION_MM7
  else if v = "MMVIII" then some .LOD_VERSION_MM8
  else none

/-- Case-insensitive string comparison, as the iequals helper. -/
def iequals (a b : String) : Bool :=
  a.toLower == b.toLower

/-- Translated from parseHeader: rejects a bad signature, an unrecognized
version and a directory count other than one. -/
def parseHeader (b : Blob) : Except LodError (LodHeader × LodVersion) :=
  let header := b.header
  if header.signature ≠ "LOD" then .error .badSignature
  else
    match tryDeserializeVersion header.version with
    | none => .error .badVersion
    | some version =>
      if header.numDirectories ≠ 1 then .error .badNumDirectories
      else .ok (header, version)

/-- Translated from parseDirectoryEntry: rejects a root directory index that
is too small for its item count or that points outside the LOD file. -/
def parseDirectoryEntry (b : Blob) (version : LodVersion) : Except LodError LodEntry :=
  let result := b.rootEntry
  let expectedDataSize := result.numItems * fileEntrySize version
  if result.dataSize < expectedDataSize then .error .badDirIndexSize
  else if result.dataOffset + result.dataSize > b.size then .error .dirIndexOutOfBounds
  else .ok result

/-- Translated from the validation loop of parseFileEntries: rejects
subdirectory entries and entries pointing outside the root directory data. -/
def parseFileEntries (entries : List LodEntry) (directoryEntry : LodEntry) :
    Except LodError (List LodEntry) :=
  match entries with
  | [] => .ok []
  | entry :: rest =>
    if entry.numItems ≠ 0 then .error (.subdirectory entry.name)
    else if entry.dataOffset + entry.dataSize > directoryEntry.dataSize then
      .error (.entryOutOfBounds entry.name)
    else
      match parseFileEntries rest directoryEntry with
      | .error e => .error e
      | .ok rs => .ok (entry :: rs)

/-- Translated from the duplicate-filtering loop of LodReader open: keeps the
first entry of each case-insensitive name, skips later duplicates when
allowed, and fails on them otherwise. The accumulator holds the regions built
so far in reverse order. -/
def buildRegions (allowDuplicates : Bool) (rootDataOffset : Nat)
    (acc : List LodRegion) (entries : List LodEntry) :
    Except LodError (List LodRegion) :=
  match entries with
  | [] => .ok acc.reverse
  | entry :: rest =>
    if acc.any (fun file => iequals file.name entry.name) then
      if allowDuplicates then buildRegions allowDuplicates rootDataOffset acc rest
      else .error (.duplicateEntry entry.name.toLower)
    else
      buildRegions allowDuplicates rootDataOffset
        ({ name := entry.name
           offset := rootDataOffset + entry.dataOffset
           size := entry.dataSize } :: acc) rest

/-- Translated from LodReader open on a blob. The pair returned models the
C++ control flow: the first component is the exception thrown, if any, and
the second is the observable reader state when control leaves the function.
Each throw site returns the state as it was at the throw, which in the source
is the untouched entry state because the four fields are assigned only after
all validations; the error branches below therefore return the input reader
unchanged exactly where the source leaves it unchanged. Line 95 of the source
overwrites the root directory size before the entries are validated, which is
reflected by the rootEntry update below. -/
def LodReader.openFromBlob (r : LodReader) (blob : Blob) (path : String)
    (openFlags : Nat) : Option LodError × LodReader :=
  if blob.size < sizeofLodHeaderMM6 + sizeofLodEntryMM6 then (some .tooSmall, r)
  else
    match parseHeader blob with
    | .error e => (some e, r)
    | .ok hv =>
      match parseDirectoryEntry blob hv.2 with
      | .error e => (some e, r)
      | .ok re =>
        let rootEntry := { re with dataSize := blob.size - re.dataOffset }
        match parseFileEntries blob.entries rootEntry with
        | .error e => (some e, r)
        | .ok entries =>
          match buildRegions (openFlags &&& LOD_ALLOW_DUPLICATES ≠ 0)
              rootEntry.dataOffset [] entries with
          | .error e => (some e, r)
          | .ok files =>
            (none,
             { _lod := blob
               _path := path
               _info := { version := hv.2
                          description := hv.1.description
                          rootName := rootEntry.name }
               _files := files })

/-- Translated from LodReader close: every observable field is reset to its
default value, regardless of the prior state. -/
def LodReader.close (r : LodReader) : LodReader :=
  { _lod := Blob.empty, _path := "", _info := LodInfo.empty, _files := [] }

/-!
Concrete instances used by the scenario theorems, the counterexamples and the
witnesses.
-/

/-- A solid face whose plane is at x = 50 with the normal facing the origin,
spanning a 200 by 200 square; its dominant plane is YZ. -/
def c8Face : BLVFace :=
  { id := 7
    normal := ⟨-65536, 0, 0⟩
    dist := 50
    projection := .projYZ
    vertices := [⟨50, -100, -100⟩, ⟨50, 100, -100⟩, ⟨50, 100, 100⟩, ⟨50, -100, 100⟩]
    Ethereal := false }

/-- The same geometry as c8Face but flagged ethereal and with a different
face id. -/
def c6Face : BLVFace :=
  { id := 9
    normal := ⟨-65536, 0, 0⟩
    dist := 50
    projection := .projYZ
    vertices := [⟨50, -100, -100⟩, ⟨50, 100, -100⟩, ⟨50, 100, 100⟩, ⟨50, -100, 100⟩]
    Ethereal := true }

/-- A collision context at the origin moving along positive x with a movement
budget of 100 and a granted distance of 100; it satisfies the context
invariant. -/
def c1State : CollisionState :=
  { check_hi := 0
    radius_lo := 5
    radius_hi := 0
    position_lo := ⟨0, 0, 0⟩
    position_hi := ⟨0, 0, 0⟩
    new_position_lo := ⟨0, 0, 0⟩
    new_position_hi := ⟨0, 0, 0⟩
    velocity := ⟨0, 0, 0⟩
    direction := ⟨65536, 0, 0⟩
    speed := 0
    total_move_distance := 0
    move_distance := 100
    adjusted_move_distance := 100
    pid := 0
    ignored_face_id := -1 }

/-- An actor with a circle of radius 5 standing 8 units from the origin in the
horizontal plane. -/
def actorNear : Actor := { position := ⟨8, 0, 0⟩, radius := 5 }

/-- An actor with a circle of radius 5 standing 20 units from the origin in
the horizontal plane. -/
def actorFar : Actor := { position := ⟨20, 0, 0⟩, radius := 5 }

/-!
Helper lemmas about the face tests and the portal scan.
-/

/-- The point-vs-face test never returns a second component above its input
best distance. -/
theorem collidePointWithFaceCore_snd_le (face : BLVFace) (pos dir : Vec3_int_)
    (d : Int) : (collidePointWithFaceCore face pos dir d).2 ≤ d := by
  simp only [collidePointWithFaceCore]
  split_ifs <;> dsimp only <;> omega

/-- When the point-vs-face test fails, the best distance is left untouched. -/
theorem collidePointWithFaceCore_false (face : BLVFace) (pos dir : Vec3_int_)
    (d : Int) (h : (collidePointWithFaceCore face pos dir d).1 = false) :
    (collidePointWithFaceCore face pos dir d).2 = d := by
  simp only [collidePointWithFaceCore] at h ⊢
  split_ifs at h ⊢ <;> simp_all

/-- When the sphere-vs-face test succeeds, the distance it reports is
non-negative. -/
theorem collideSphereWithFaceCore_true_nonneg (face : BLVFace) (pos : Vec3_int_)
    (radius : Int) (dir : Vec3_int_) (d : Int) (ie : Bool) (ign : Int)
    (h : (collideSphereWithFaceCore face pos radius dir d ie ign).1 = true) :
    0 ≤ (collideSphereWithFaceCore face pos radius dir d ie ign).2 := by
  simp only [collideSphereWithFaceCore] at h ⊢
  split_ifs at h ⊢ <;> simp_all

/-- When the sphere-vs-face test fails, the out parameter keeps its input
value. -/
theorem collideSphereWithFaceCore_false (face : BLVFace) (pos : Vec3_int_)
    (radius : Int) (dir : Vec3_int_) (d : Int) (ie : Bool) (ign : Int)
    (h : (collideSphereWithFaceCore face pos radius dir d ie ign).1 = false) :
    (collideSphereWithFaceCore face pos radius dir d ie ign).2 = d := by
  simp only [collideSphereWithFaceCore] at h ⊢
  split_ifs at h ⊢ <;> simp_all

/-- Once a portal hit has been recorded, the rest of the scan keeps it. -/
theorem portalScan_true (pos dir : Vec3_int_) (faces : List BLVFace) (b : Int) :
    (faces.foldl (portalScanStep pos dir) (true, b)).1 = true := by
  induction faces generalizing b with
  | nil => rfl
  | cons f fs ih =>
    simp only [List.foldl_cons, portalScanStep, Bool.true_or]
    exact ih _

/-- The portal scan records a hit exactly when some portal face passes the
point-vs-face test at the full movement budget: as long as no face has hit,
the threaded best distance stays equal to the budget. -/
theorem portalScan_hit_iff (pos dir : Vec3_int_) (faces : List BLVFace) (b : Int) :
    (faces.foldl (portalScanStep pos dir) (false, b)).1 = true ↔
      ∃ f ∈ faces, (CollidePointIndoorWithFace f pos dir b).1 = true := by
  induction faces with
  | nil => simp
  | cons f fs ih =>
    simp only [List.foldl_cons, portalScanStep, Bool.false_or, List.mem_cons]
    rcases hf : (CollidePointIndoorWithFace f pos dir b).1 with _ | _
    · have hsnd : (CollidePointIndoorWithFace f pos dir b).2 = b :=
        collidePointWithFaceCore_false f pos dir b hf
      rw [hsnd, ih]
      constructor
      · intro ⟨g, hg, hgt⟩
        exact ⟨g, Or.inr hg, hgt⟩
      · intro ⟨g, hg, hgt⟩
        rcases hg with hg | hg
        · rw [hg] at hgt
          rw [hgt] at hf
          cases hf
        · exact ⟨g, hg, hgt⟩
    · rw [portalScan_true]
      constructor
      · intro _
        exact ⟨f, Or.inl rfl, hf⟩
      · intro _
        rfl

/-- Recording a face test result whose reported distance is non-negative on a
hit preserves the context invariant and leaves the movement budget and the
accumulated total untouched. -/
theorem lowerDistance_inv (st : CollisionState) (hit : Bool × Int) (handle : Nat)
    (h : CollisionInvariant st) (hnn : hit.1 = true → 0 ≤ hit.2) :
    CollisionInvariant (lowerDistance st hit handle) ∧
      (lowerDistance st hit handle).total_move_distance = st.total_move_distance ∧
      (lowerDistance st hit handle).move_distance = st.move_distance ∧
      (lowerDistance st hit handle).position_lo = st.position_lo ∧
      (lowerDistance st hit handle).position_hi = st.position_hi ∧
      (lowerDistance st hit handle).radius_lo = st.radius_lo ∧
      (lowerDistance st hit handle).radius_hi = st.radius_hi ∧
      (lowerDistance st hit handle).direction = st.direction ∧
      (lowerDistance st hit handle).ignored_face_id = st.ignored_face_id ∧
      (lowerDistance st hit handle).check_hi = st.check_hi := by
  obtain ⟨ha, hm, hle⟩ := h
  unfold lowerDistance CollisionInvariant
  split_ifs with h1
  · dsimp only
    exact ⟨⟨hnn h1.1, hm, by have := h1.2; omega⟩, rfl, rfl, rfl, rfl, rfl, rfl,
      rfl, rfl, rfl⟩
  · exact ⟨⟨ha, hm, hle⟩, rfl, rfl, rfl, rfl, rfl, rfl, rfl, rfl, rfl⟩

/-- One driver step preserves the context invariant and leaves the movement
budget and the accumulated total untouched. -/
theorem collideGeometryStep_inv (ie : Bool) (st : CollisionState) (face : BLVFace)
    (h : CollisionInvariant st) :
    CollisionInvariant (collideGeometryStep ie st face) ∧
      (collideGeometryStep ie st face).total_move_distance = st.total_move_distance ∧
      (collideGeometryStep ie st face).move_distance = st.move_distance := by
  have h1 := lowerDistance_inv st
    (CollideIndoorWithFace face st.position_lo st.radius_lo st.direction
      st.adjusted_move_distance ie st.ignored_face_id)
    (mkPid OBJECT_BModel face.id.toNat) h
    (fun ht => collideSphereWithFaceCore_true_nonneg _ _ _ _ _ _ _ ht)
  unfold collideGeometryStep
  split_ifs with hc
  · set st1 := lowerDistance st
      (CollideIndoorWithFace face st.position_lo st.radius_lo st.direction
        st.adjusted_move_distance ie st.ignored_face_id)
      (mkPid OBJECT_BModel face.id.toNat) with hst1
    have h2 := lowerDistance_inv st1
      (CollideIndoorWithFace face st.position_hi st.radius_hi st1.direction
        st1.adjusted_move_distance ie st1.ignored_face_id)
      (mkPid OBJECT_BModel face.id.toNat) h1.1
      (fun ht => collideSphereWithFaceCore_true_nonneg _ _ _ _ _ _ _ ht)
    exact ⟨h2.1, h2.2.1.trans h1.2.1, h2.2.2.1.trans h1.2.2.1⟩
  · exact ⟨h1.1, h1.2.1, h1.2.2.1⟩

/-- The whole indoor geometry pass preserves the context invariant and leaves
the movement budget and the accumulated total untouched. -/
theorem collideIndoorWithGeometry_inv (s : CollisionState) (faces : List BLVFace)
    (ie : Bool) (h : CollisionInvariant s) :
    CollisionInvariant (CollideIndoorWithGeometry s faces ie) ∧
      (CollideIndoorWithGeometry s faces ie).total_move_distance =
        s.total_move_distance ∧
      (CollideIndoorWithGeometry s faces ie).move_distance = s.move_distance := by
  induction faces generalizing s with
  | nil => exact ⟨h, rfl, rfl⟩
  | cons f fs ih =>
    have hstep := collideGeometryStep_inv ie s f h
    have hrest := ih (collideGeometryStep ie s f) hstep.1
    exact ⟨hrest.1, hrest.2.1.trans hstep.2.1, hrest.2.2.trans hstep.2.2⟩

/-- The movement preparation establishes the context invariant whenever the
time delta is non-negative, and resets the accumulated total to zero. -/
theorem prepare_establishes_inv (s : CollisionState) (dt : Int) (hdt : 0 ≤ dt) :
    CollisionInvariant (s.PrepareAndCheckIfStationary dt).2 ∧
      (s.PrepareAndCheckIfStationary dt).2.total_move_distance = 0 := by
  have hspd : 0 ≤ vecLenInt
      ⟨s.new_position_lo.x - s.position_lo.x,
       s.new_position_lo.y - s.position_lo.y,
       s.new_position_lo.z - s.position_lo.z⟩ := Int.ofNat_nonneg _
  have hmd : 0 ≤ vecLenInt
      ⟨s.new_position_lo.x - s.position_lo.x,
       s.new_position_lo.y - s.position_lo.y,
       s.new_position_lo.z - s.position_lo.z⟩ * dt / 65536 :=
    Int.ediv_nonneg (mul_nonneg hspd hdt) (by omega)
  simp only [CollisionState.PrepareAndCheckIfStationary]
  split_ifs with h0
  · exact ⟨⟨hmd, hmd, le_refl _⟩, rfl⟩
  · exact ⟨⟨hmd, hmd, le_refl _⟩, rfl⟩

/-- When the portal check reports no collision, the context is returned
untouched. -/
theorem collideIndoorWithPortals_true_eq (s : CollisionState)
    (faces : List BLVFace) (h : (CollideIndoorWithPortals s faces).1 = true) :
    (CollideIndoorWithPortals s faces).2 = s := by
  simp only [CollideIndoorWithPortals] at h ⊢
  split_ifs at h ⊢ <;> simp_all

/-- When the portal check reports a collision, the granted distance is set to
the sentinel and every other field of the context keeps its value. -/
theorem collideIndoorWithPortals_false_parts (s : CollisionState)
    (faces : List BLVFace) (h : (CollideIndoorWithPortals s faces).1 = false) :
    (CollideIndoorWithPortals s faces).2.adjusted_move_distance = 0xFFFFFF ∧
      (CollideIndoorWithPortals s faces).2.total_move_distance =
        s.total_move_distance ∧
      (CollideIndoorWithPortals s faces).2.move_distance = s.move_distance := by
  simp only [CollideIndoorWithPortals] at h ⊢
  split_ifs at h ⊢ <;> simp_all

/-!
Claim theorems.
-/

/-- C1 counterexample: the claim fails as stated. The context c1State
satisfies the invariant with a movement budget of 100, yet after
CollideIndoorWithPortals detects a portal collision it sets the granted
distance to the sentinel 0xFFFFFF, which exceeds the budget, so the invariant
does not hold after that operation. -/
theorem C1_portal_sentinel_breaks_invariant :
    CollisionInvariant c1State ∧
      ¬ CollisionInvariant (CollideIndoorWithPortals c1State [c8Face]).2 := by
  constructor
  · decide
  · decide

/-- C1 (amended): the context invariant (granted distance and budget
non-negative, granted at most the budget) is established by the movement
preparation for a non-negative time delta, is preserved by the whole indoor
geometry pass, and is preserved by CollideIndoorWithPortals when it returns
true; the accumulated total never decreases across these operations. When
CollideIndoorWithPortals returns false it sets the granted distance to the
sentinel 0xFFFFFF, which can exceed the remaining budget, so only the
non-negativity parts of the invariant survive that one operation. -/
theorem C1_context_invariant_amended :
    (∀ (s : CollisionState) (dt : Int), 0 ≤ dt →
        CollisionInvariant (s.PrepareAndCheckIfStationary dt).2 ∧
          (s.PrepareAndCheckIfStationary dt).2.total_move_distance = 0) ∧
      (∀ (s : CollisionState) (faces : List BLVFace) (ie : Bool),
        CollisionInvariant s →
          CollisionInvariant (CollideIndoorWithGeometry s faces ie) ∧
            s.total_move_distance ≤
              (CollideIndoorWithGeometry s faces ie).total_move_distance) ∧
      (∀ (s : CollisionState) (faces : List BLVFace),
        CollisionInvariant s → (CollideIndoorWithPortals s faces).1 = true →
          CollisionInvariant (CollideIndoorWithPortals s faces).2 ∧
            s.total_move_distance ≤
              (CollideIndoorWithPortals s faces).2.total_move_distance) ∧
      (∀ (s : CollisionState) (faces : List BLVFace),
        (CollideIndoorWithPortals s faces).1 = false →
          (CollideIndoorWithPortals s faces).2.adjusted_move_distance = 0xFFFFFF ∧
            0 ≤ (CollideIndoorWithPortals s faces).2.adjusted_move_distance ∧
            s.total_move_distance ≤
              (CollideIndoorWithPortals s faces).2.total_move_distance) := by
  refine ⟨?_, ?_, ?_, ?_⟩
  · intro s dt hdt
    exact prepare_establishes_inv s dt hdt
  · intro s faces ie h
    have hg := collideIndoorWithGeometry_inv s faces ie h
    exact ⟨hg.1, le_of_eq hg.2.1.symm⟩
  · intro s faces h ht
    rw [collideIndoorWithPortals_true_eq s faces ht]
    exact ⟨h, le_refl _⟩
  · intro s faces hf
    have hp := collideIndoorWithPortals_false_parts s faces hf
    refine ⟨hp.1, ?_, le_of_eq hp.2.1.symm⟩
    rw [hp.1]
    omega

/-- C1 witness for the amended theorem: the preparation establishes the
invariant on a concrete context, and the geometry pass preserves it. -/
theorem C1_context_invariant_amended_witness :
    CollisionInvariant ((c1State.PrepareAndCheckIfStationary 65536).2) ∧
      CollisionInvariant (CollideIndoorWithGeometry c1State [c8Face] false) :=
  ⟨(C1_context_invariant_amended.1 c1State 65536 (by decide)).1,
   (C1_context_invariant_amended.2.1 c1State [c8Face] false (by decide)).1⟩

/-- C2: the point-vs-face test, indoor and outdoor, never stores a value
greater than the input best distance: the stored value is always at most the
input, and when the test returns false the parameter is left exactly equal to
the input. -/
theorem C2_point_face_never_increases (face : BLVFace) (pos dir : Vec3_int_)
    (d : Int) :
    ((CollidePointIndoorWithFace face pos dir d).2 ≤ d ∧
        ((CollidePointIndoorWithFace face pos dir d).1 = false →
          (CollidePointIndoorWithFace face pos dir d).2 = d)) ∧
      ∀ model_index : Nat,
        (CollidePointOutdoorWithFace d face pos dir model_index).2 ≤ d ∧
          ((CollidePointOutdoorWithFace d face pos dir model_index).1 = false →
            (CollidePointOutdoorWithFace d face pos dir model_index).2 = d) :=
  ⟨⟨collidePointWithFaceCore_snd_le face pos dir d,
    collidePointWithFaceCore_false face pos dir d⟩,
   fun _ =>
    ⟨collidePointWithFaceCore_snd_le face pos dir d,
     collidePointWithFaceCore_false face pos dir d⟩⟩

/-- C2 witness: a parallel direction makes the test fail and leave the best
distance untouched. -/
theorem C2_point_face_never_increases_witness :
    (CollidePointIndoorWithFace c8Face ⟨0, 0, 0⟩ ⟨0, 65536, 0⟩ 100).1 = false ∧
      (CollidePointIndoorWithFace c8Face ⟨0, 0, 0⟩ ⟨0, 65536, 0⟩ 100).2 = 100 :=
  ⟨by decide,
   (C2_point_face_never_increases c8Face ⟨0, 0, 0⟩ ⟨0, 65536, 0⟩ 100).1.2 (by decide)⟩

/-- C3: CollideIndoorWithPortals returns false exactly when some portal face
passes the point-vs-face test within the movement budget; in that case the
granted distance is set to the sentinel 0xFFFFFF, and when it returns true the
whole context is left unchanged. -/
theorem C3_portal_contract (s : CollisionState) (faces : List BLVFace) :
    ((CollideIndoorWithPortals s faces).1 = false ↔
        ∃ f ∈ faces,
          (CollidePointIndoorWithFace f s.position_lo s.direction
            s.move_distance).1 = true) ∧
      ((CollideIndoorWithPortals s faces).1 = false →
        (CollideIndoorWithPortals s faces).2.adjusted_move_distance = 0xFFFFFF) ∧
      ((CollideIndoorWithPortals s faces).1 = true →
        (CollideIndoorWithPortals s faces).2 = s) := by
  refine ⟨?_, fun hf => (collideIndoorWithPortals_false_parts s faces hf).1,
    collideIndoorWithPortals_true_eq s faces⟩
  rw [← portalScan_hit_iff s.position_lo s.direction faces s.move_distance]
  simp only [CollideIndoorWithPortals]
  split_ifs with h <;> simp [h]

/-- C3 witness: a concrete portal hit sets the sentinel, and an empty portal
list leaves the context unchanged. -/
theorem C3_portal_contract_witness :
    (CollideIndoorWithPortals c1State [c8Face]).2.adjusted_move_distance =
        0xFFFFFF ∧
      (CollideIndoorWithPortals c1State []).2 = c1State :=
  ⟨(C3_portal_contract c1State [c8Face]).2.1 (by decide),
   (C3_portal_contract c1State []).2.2 (by decide)⟩

/-- C4: when the sphere-vs-face touch test, indoor or outdoor, returns true
the distance it reports is non-negative, and when it returns false the out
parameter keeps its input value, modelling that it is not written at all. -/
theorem C4_sphere_face_contract (face : BLVFace) (pos : Vec3_int_)
    (radius : Int) (dir : Vec3_int_) (d : Int) (ie : Bool) (ign : Int) :
    ((CollideIndoorWithFace face pos radius dir d ie ign).1 = true →
        0 ≤ (CollideIndoorWithFace face pos radius dir d ie ign).2) ∧
      ((CollideIndoorWithFace face pos radius dir d ie ign).1 = false →
        (CollideIndoorWithFace face pos radius dir d ie ign).2 = d) ∧
      ∀ model_index : Nat,
        ((CollideOutdoorWithFace radius d pos dir face model_index ie ign).1 =
            true →
          0 ≤ (CollideOutdoorWithFace radius d pos dir face model_index ie ign).2) ∧
        ((CollideOutdoorWithFace radius d pos dir face model_index ie ign).1 =
            false →
          (CollideOutdoorWithFace radius d pos dir face model_index ie ign).2 = d) :=
  ⟨collideSphereWithFaceCore_true_nonneg face pos radius dir d ie ign,
   collideSphereWithFaceCore_false face pos radius dir d ie ign,
   fun _ =>
    ⟨collideSphereWithFaceCore_true_nonneg face pos radius dir d ie ign,
     collideSphereWithFaceCore_false face pos radius dir d ie ign⟩⟩

/-- C4 witness: a hit reports a non-negative distance and a parallel miss
leaves the out parameter at its input value. -/
theorem C4_sphere_face_contract_witness :
    0 ≤ (CollideIndoorWithFace c8Face ⟨0, 0, 0⟩ 10 ⟨65536, 0, 0⟩ 1000 false (-1)).2 ∧
      (CollideIndoorWithFace c8Face ⟨0, 0, 0⟩ 10 ⟨0, 65536, 0⟩ 1000 false (-1)).2 =
        1000 :=
  ⟨(C4_sphere_face_contract c8Face ⟨0, 0, 0⟩ 10 ⟨65536, 0, 0⟩ 1000 false (-1)).1
      (by decide),
   (C4_sphere_face_contract c8Face ⟨0, 0, 0⟩ 10 ⟨0, 65536, 0⟩ 1000 false (-1)).2.1
      (by decide)⟩

/-- C5: when the desired new position equals the current position the
preparation returns true (stationary) and sets all axes of the direction to
zero; being a pure state computation it issues no face, portal, decoration or
actor query. -/
theorem C5_stationary_shortcircuit (s : CollisionState) (dt : Int)
    (h : s.new_position_lo = s.position_lo) :
    (s.PrepareAndCheckIfStationary dt).1 = true ∧
      (s.PrepareAndCheckIfStationary dt).2.direction = ⟨0, 0, 0⟩ := by
  have hv : (⟨s.new_position_lo.x - s.position_lo.x,
             s.new_position_lo.y - s.position_lo.y,
             s.new_position_lo.z - s.position_lo.z⟩ : Vec3_int_) = ⟨0, 0, 0⟩ := by
    rw [h]
    simp
  simp only [CollisionState.PrepareAndCheckIfStationary, hv]
  norm_num [vecLenInt]

/-- C5 witness: a concrete stationary context short-circuits. -/
theorem C5_stationary_shortcircuit_witness :
    (c1State.PrepareAndCheckIfStationary 65536).1 = true ∧
      (c1State.PrepareAndCheckIfStationary 65536).2.direction = ⟨0, 0, 0⟩ :=
  C5_stationary_shortcircuit c1State 65536 rfl

/-- C6: a face marked ethereal never reports a collision when ethereal faces
are ignored; when they are not ignored the ethereal flag is disregarded
entirely, so the face constrains movement exactly as the same face without
the flag (it reports a hit whenever the geometric test does); and a face
whose id equals the ignored face id never reports a collision regardless of
geometry. -/
theorem C6_ethereal_and_ignored_exclusion (face : BLVFace) (pos : Vec3_int_)
    (radius : Int) (dir : Vec3_int_) (d : Int) (ign : Int) :
    (face.Ethereal = true →
        CollideIndoorWithFace face pos radius dir d true ign = (false, d)) ∧
      (∀ b : Bool,
        CollideIndoorWithFace face pos radius dir d false ign =
          CollideIndoorWithFace { face with Ethereal := b } pos radius dir d
            false ign) ∧
      (∀ ie : Bool, face.id = ign →
        CollideIndoorWithFace face pos radius dir d ie ign = (false, d)) := by
  refine ⟨?_, ?_, ?_⟩
  · intro he
    simp [CollideIndoorWithFace, collideSphereWithFaceCore, he]
  · intro b
    simp [CollideIndoorWithFace, collideSphereWithFaceCore, faceSignedDist,
      faceVerts2D]
  · intro ie hid
    simp only [CollideIndoorWithFace, collideSphereWithFaceCore, hid]
    split_ifs with h1 <;> rfl

/-- C6 witness: the ethereal face is excluded when requested, and the face
with the ignored id reports no collision even though its geometry is hit. -/
theorem C6_ethereal_and_ignored_exclusion_witness :
    CollideIndoorWithFace c6Face ⟨0, 0, 0⟩ 10 ⟨65536, 0, 0⟩ 1000 true (-1) =
        (false, 1000) ∧
      CollideIndoorWithFace c8Face ⟨0, 0, 0⟩ 10 ⟨65536, 0, 0⟩ 1000 false 7 =
        (false, 1000) :=
  ⟨(C6_ethereal_and_ignored_exclusion c6Face ⟨0, 0, 0⟩ 10 ⟨65536, 0, 0⟩ 1000
      (-1)).1 rfl,
   (C6_ethereal_and_ignored_exclusion c8Face ⟨0, 0, 0⟩ 10 ⟨65536, 0, 0⟩ 1000
      7).2.2 false rfl⟩

/-- C7: the actor test is a 2D circle-circle overlap test: two radius-5
actors 8 units apart collide while 20 units apart they do not; a nonzero
override replaces the actor radius (the result does not depend on the actor
radius), a zero override falls back to the actor radius, and a context whose
pid equals the packed handle of the tested actor never collides with it. -/
theorem C7_actor_circle_test :
    CollideWithActor c1State [actorNear] 0 0 = true ∧
      CollideWithActor c1State [actorFar] 0 0 = false ∧
      (∀ (s : CollisionState) (a : Actor) (v r : Int), r ≠ 0 →
        CollideWithActor s [{ a with radius := v }] 0 r =
          CollideWithActor s [a] 0 r) ∧
      (∀ (s : CollisionState) (a : Actor), a.radius ≠ 0 →
        CollideWithActor s [a] 0 0 = CollideWithActor s [a] 0 a.radius) ∧
      (∀ (s : CollisionState) (actors : List Actor) (idx : Nat) (r : Int),
        s.pid = mkPid OBJECT_Actor idx →
          CollideWithActor s actors idx r = false) := by
  refine ⟨by decide, by decide, ?_, ?_, ?_⟩
  · intro s a v r hr
    simp [CollideWithActor, hr]
  · intro s a hr
    simp [CollideWithActor, hr]
  · intro s actors idx r hpid
    cases h : actors[idx]? <;> simp [CollideWithActor, h, hpid]

/-- C7 witness: override replacement, fallback to the actor radius, and
self-exclusion, at concrete inputs. -/
theorem C7_actor_circle_test_witness :
    CollideWithActor c1State [{ actorNear with radius := 77 }] 0 5 =
        CollideWithActor c1State [actorNear] 0 5 ∧
      CollideWithActor c1State [actorNear] 0 0 =
        CollideWithActor c1State [actorNear] 0 actorNear.radius ∧
      CollideWithActor { c1State with pid := mkPid OBJECT_Actor 0 } [actorNear]
        0 0 = false :=
  ⟨C7_actor_circle_test.2.2.1 c1State actorNear 77 5 (by decide),
   C7_actor_circle_test.2.2.2.1 c1State actorNear (by decide),
   C7_actor_circle_test.2.2.2.2 { c1State with pid := mkPid OBJECT_Actor 0 }
     [actorNear] 0 0 rfl⟩

/-- C8: a sphere of radius 10 at the origin moving along positive x toward
the face whose plane is at x = 50 touches it after exactly 40 units, while
the same sphere moving parallel to that plane reports no collision and
leaves the out parameter untouched. -/
theorem C8_sphere_face_scenario :
    CollideIndoorWithFace c8Face ⟨0, 0, 0⟩ 10 ⟨65536, 0, 0⟩ 1000 false (-1) =
        (true, 40) ∧
      CollideIndoorWithFace c8Face ⟨0, 0, 0⟩ 10 ⟨0, 65536, 0⟩ 1000 false (-1) =
        (false, 1000) := by
  constructor
  · decide
  · decide

/-- C9: LodReader open is atomic on error: whenever any validation fails and
an exception leaves the function, the observable reader state is exactly what
it was before the call, because all four fields are assigned only after every
validation has passed. -/
theorem C9_open_atomic_on_error (r : LodReader) (blob : Blob) (path : String)
    (flags : Nat) :
    (LodReader.openFromBlob r blob path flags).1.isSome = true →
      (LodReader.openFromBlob r blob path flags).2 = r := by
  unfold LodReader.openFromBlob
  split
  · intro _
    rfl
  · split
    · intro _
      rfl
    · split
      · intro _
        rfl
      · dsimp only
        split
        · intro _
          rfl
        · split
          · intro _
            rfl
          · intro h
            simp at h

/-- C9 witness: opening an empty blob fails with the size check and leaves a
closed reader unchanged. -/
theorem C9_open_atomic_on_error_witness :
    (LodReader.openFromBlob LodReader.closedState Blob.empty "" 0).1.isSome =
        true ∧
      (LodReader.openFromBlob LodReader.closedState Blob.empty "" 0).2 =
        LodReader.closedState :=
  ⟨by decide,
   C9_open_atomic_on_error LodReader.closedState Blob.empty "" 0 (by decide)⟩

/-- C10: LodReader close resets the blob, the path, the info and the file
list to their empty default values on any reader, and closing twice yields
the same state as closing once, so double-closing never fails. -/
theorem C10_close_idempotent (r : LodReader) :
    r.close._lod = Blob.empty ∧ r.close._path = "" ∧
      r.close._info = LodInfo.empty ∧ r.close._files = [] ∧
      r.close.close = r.close :=
  ⟨rfl, rfl, rfl, rfl, rfl⟩
